import Mathlib

/-!
Shallow embedding, in Lean 4, of the MoolyaMitra scraper (`src/main.py`):
the selector-fallback resolver, the Amazon product-page scraper, the
record normalizer/persister, the background sitemap-scraping task and the
HTTP trigger endpoint.  The browsing session, the HTTP fetchers and the
DynamoDB store are external collaborators; they are embedded as oracles
(functions supplied as parameters), while all control flow of `main.py`
is translated line by line.
-/

set_option autoImplicit false

namespace MoolyaMitra

/-! ## Browser collaborator model -/

/-- The selector kinds used in `main.py`: `By.ID` and `By.CSS_SELECTOR`. -/
inductive SelectorType where
  | id
  | cssSelector
  deriving DecidableEq, Repr

/-- A locator, as passed to the browser: a `(selector_type, selector_value)`
pair, e.g. `(By.ID, "productTitle")`. -/
def Locator : Type := SelectorType × String

instance : DecidableEq Locator := by
  unfold Locator
  infer_instance

/-- A page element, as handed back by Selenium: it exposes `.text` and
`.get_attribute(name)` (which in Python may return `None`). -/
structure Element where
  text : String
  getAttribute : String → Option String

/-- The outcome of one `wait.until(EC.presence_of_element_located(loc))`
call: the element appears within the wait, the wait times out
(`TimeoutException`), or the locator is rejected by the query engine
(`InvalidSelectorException`, which `WebDriverWait.until` does not ignore
and which is not a `TimeoutException`). -/
inductive QueryResult where
  | found (e : Element)
  | timeoutMiss
  | invalidSelector

/-- The state of the page a driver is currently on, together with the
query oracle for `wait.until(EC.presence_of_element_located(...))`.
`query` is a pure read: it has no effect on the page. -/
structure Page where
  currentUrl : String
  pageSource : String
  query : SelectorType → String → QueryResult

/-- A driver (browsing session): `driver.get url` either leaves the driver
on a loaded page (`some page`) or raises (`none`, e.g. a
`WebDriverException` during navigation). -/
structure Driver where
  pageOf : String → Option Page

/-! ## String helpers mirroring the Python built-ins used -/

/-- Python's `needle in hay` substring test. -/
def strContains (hay needle : String) : Bool :=
  let h := hay.toList
  let n := needle.toList
  (List.range (h.length + 1)).any fun i => n.isPrefixOf (h.drop i)

/-- One step of `pyReplace`, with fuel: at each position, a match of the
pattern is replaced and scanning resumes after it, else one character is
kept.  Fuel is the remaining string length, consumed one character per
step. -/
def replaceAux (pat repl : List Char) : Nat → List Char → List Char
  | _, [] => []
  | 0, cs => cs
  | n + 1, c :: cs =>
    if pat.isPrefixOf (c :: cs) then
      repl ++ replaceAux pat repl n (List.drop (pat.length - 1) cs)
    else
      c :: replaceAux pat repl n cs

/-- Python's `s.replace(pattern, repl)` for a non-empty pattern: every
non-overlapping occurrence, scanning left to right, is replaced. -/
def pyReplace (s pattern repl : String) : String :=
  if pattern.toList.isEmpty then s
  else String.mk (replaceAux pattern.toList repl.toList s.toList.length s.toList)

/-- Python's `s.strip()`: leading and trailing whitespace removed. -/
def pyStrip (s : String) : String :=
  String.mk
    (((s.toList.dropWhile Char.isWhitespace).reverse.dropWhile
        Char.isWhitespace).reverse)

/-- Python's `s.lower()` (for the ASCII letters that occur here). -/
def pyLower (s : String) : String :=
  String.mk (s.toList.map Char.toLower)

/-- Decimal value of a list of digit characters (most significant first). -/
def digitsVal (ds : List Char) : Nat :=
  ds.foldl (fun a c => 10 * a + (c.toNat - 48)) 0

/-- Modelled fragment of Python's `int(float(s))`: an optional sign, a run
of decimal digits, and an optional `.`-separated fractional run, with at
least one digit present and nothing else in the (whitespace-stripped)
string; any other string raises `ValueError`.  `int` truncates toward
zero, so the fractional digits are discarded and the result is the signed
integer-part value.  (Exponents, `inf`/`nan` and non-ASCII digits are not
modelled; price strings never contain them.) -/
def py_int_of_float (s : String) : Option Int :=
  let cs := (pyStrip s).toList
  let signed : Int × List Char :=
    match cs with
    | '-' :: r => (-1, r)
    | '+' :: r => (1, r)
    | r => (1, r)
  let ip := signed.2.takeWhile Char.isDigit
  let rest := signed.2.dropWhile Char.isDigit
  match rest with
  | [] => if ip.isEmpty then none else some (signed.1 * digitsVal ip)
  | '.' :: r2 =>
      let fp := r2.takeWhile Char.isDigit
      let rest2 := r2.dropWhile Char.isDigit
      if rest2.isEmpty && !(ip.isEmpty && fp.isEmpty) then
        some (signed.1 * digitsVal ip)
      else none
  | _ => none

/-- Python's `str.title()`: the first letter of every alphabetic run is
upper-cased and the rest of the run lower-cased.  (Used only to state the
spec's "site-title-cased" tag; the source never title-cases anything.) -/
def py_title (s : String) : String :=
  let step : List Char × Bool → Char → List Char × Bool := fun acc c =>
    if c.isAlpha then
      (acc.1 ++ [if acc.2 then c.toLower else c.toUpper], true)
    else
      (acc.1 ++ [c], false)
  String.mk (s.toList.foldl step ([], false)).1

/-! ## The selector-fallback resolver (`find_element_with_fallbacks`,
`main.py` lines 42-51) -/

/-- Model of `find_element_with_fallbacks(driver, wait, selectors)`.  For each
`(selector_type, selector_value)` in order it runs one bounded wait; a
found element is returned immediately, a `TimeoutException` advances to
the next candidate, and any other exception (an invalid locator)
propagates out of the function.  Exhaustion returns `None`.

The embedding returns, besides the Python result
(`Except Unit (Option Element)`, where `.error ()` is a propagated
exception), the list of candidates actually queried, which the source
makes observable through its per-candidate `print` calls. -/
def find_element_with_fallbacks (page : Page) :
    List Locator → List Locator × Except Unit (Option Element)
  | [] => ([], .ok none)
  | (st, sv) :: rest =>
    match page.query st sv with
    | .found e => ([(st, sv)], .ok (some e))
    | .timeoutMiss =>
        let r := find_element_with_fallbacks page rest
        ((st, sv) :: r.1, r.2)
    | .invalidSelector => ([(st, sv)], .error ())

/-! ## Product-page scraper (`scrape_amazon_product_page`,
`main.py` lines 89-123) -/

/-- Selector list `name_selectors` (line 99). -/
def name_selectors : List Locator :=
  [(SelectorType.id, "productTitle"),
   (SelectorType.cssSelector, "h1.a-size-large.a-spacing-none")]

/-- Selector list `price_selectors` (line 104). -/
def price_selectors : List Locator :=
  [(SelectorType.cssSelector, "span.a-price-whole"),
   (SelectorType.cssSelector, ".priceToPay span.a-offscreen")]

/-- Selector list `image_selectors` (line 110). -/
def image_selectors : List Locator :=
  [(SelectorType.id, "landingImage"),
   (SelectorType.id, "imgBlkFront"),
   (SelectorType.cssSelector, ".imgTagWrapper img")]

/-- Price normalisation and parsing, `main.py` lines 107-108:
`price_str = raw.replace('â‚¹', '').replace(',', '').strip()` followed by
`int(float(price_str))`.  The first `replace` pattern in the source file
is the three-character mojibake sequence U+00E2 U+201A U+00B9 (the UTF-8
bytes of the rupee sign U+20B9 decoded as cp1252), not the rupee sign
itself; it is written here with explicit escapes.  A parse failure
(`ValueError`) is `none`. -/
def parse_price (raw : String) : Option Int :=
  let price_str := pyStrip (pyReplace (pyReplace raw "\u00E2\u201A\u00B9" "") "," "")
  py_int_of_float price_str

/-- The character class `[A-Z0-9]` of the ASIN regex. -/
def isAsinChar (c : Char) : Bool :=
  ('A' ≤ c && c ≤ 'Z') || c.isDigit

/-- One attempted match of `/(dp|gp/product)/([A-Z0-9]{10})` at a fixed
start position: the alternation tries `dp` first, then `gp/product`, and
group 2 is the next 10 characters, all in `[A-Z0-9]`. -/
def asinAt (cs : List Char) : Option String :=
  if "/dp/".toList.isPrefixOf cs then
    let cand := (cs.drop 4).take 10
    if cand.length == 10 && cand.all isAsinChar then some (String.mk cand)
    else none
  else if "/gp/product/".toList.isPrefixOf cs then
    let cand := (cs.drop 12).take 10
    if cand.length == 10 && cand.all isAsinChar then some (String.mk cand)
    else none
  else none

/-- Model of the search `re.search(ASIN pattern, product_url)` with
`group(2)` (`main.py` lines 115-116): the leftmost match wins. -/
def extract_asin (url : String) : Option String :=
  let cs := url.toList
  (List.range (cs.length + 1)).findSome? fun i => asinAt (cs.drop i)

/-- The dictionary returned by a successful `scrape_amazon_product_page`
(line 119).  `image` is `Option` because `get_attribute('src')` may be
`None` in Python, which is stored as-is. -/
structure ScrapedData where
  name : String
  price : Int
  image : Option String
  productID : String
  category : String

/-- Model of `scrape_amazon_product_page(driver, product_url)`, lines 89-123.
`driver.get` (line 90) is outside the `try`, so a navigation exception
propagates (`.error ()`).  The CAPTCHA check (line 93) runs before any
selector is queried and returns `None`.  Inside the `try`, each of the
three fields is resolved in turn; a `None` from the resolver returns
`None`, and every exception raised inside the `try` — an invalid
selector propagating out of the resolver, `AttributeError` from
`None.replace`, `ValueError` from `float` — is caught by the broad
`except` (line 121) and becomes `None`.

The first component is the list of selector candidates actually queried
on the page, in order. -/
def scrape_amazon_product_page (driver : Driver) (product_url : String) :
    List Locator × Except Unit (Option ScrapedData) :=
  match driver.pageOf product_url with
  | none => ([], .error ())
  | some page =>
    if strContains page.currentUrl "api-services.ge"
        || strContains (pyLower page.pageSource) "captcha" then
      ([], .ok none)
    else
      let r1 := find_element_with_fallbacks page name_selectors
      match r1.2 with
      | .error _ => (r1.1, .ok none)
      | .ok none => (r1.1, .ok none)
      | .ok (some name_element) =>
        let name := name_element.text.trim
        let r2 := find_element_with_fallbacks page price_selectors
        match r2.2 with
        | .error _ => (r1.1 ++ r2.1, .ok none)
        | .ok none => (r1.1 ++ r2.1, .ok none)
        | .ok (some price_element) =>
          match price_element.getAttribute "textContent" with
          | none => (r1.1 ++ r2.1, .ok none)
          | some raw =>
            match parse_price raw with
            | none => (r1.1 ++ r2.1, .ok none)
            | some price =>
              let r3 := find_element_with_fallbacks page image_selectors
              match r3.2 with
              | .error _ => (r1.1 ++ r2.1 ++ r3.1, .ok none)
              | .ok none => (r1.1 ++ r2.1 ++ r3.1, .ok none)
              | .ok (some image_element) =>
                let image_url := image_element.getAttribute "src"
                let product_id := (extract_asin product_url).getD "UNKNOWN"
                (r1.1 ++ r2.1 ++ r3.1,
                 .ok (some { name := name, price := price, image := image_url,
                             productID := product_id, category := "Electronics" }))

/-! ## Record normalizer and persister
(`sitemap_scraping_task`, `main.py` lines 162-176) -/

/-- The persisted DynamoDB item (`item_to_save`, lines 163-171). -/
structure ProductItem where
  category : String
  productID : String
  name : String
  description : String
  image : Option String
  prices : List (String × Int)
  tags : List String

/-- Construction of `item_to_save` from `scraped_data`, lines 163-171:
the `prices` map is the literal `{"Amazon": scraped_data["price"]}` and
the `tags` list is the literal
`[scraped_data["category"], "Scraped", "Sitemap"]`. -/
def item_to_save (d : ScrapedData) : ProductItem :=
  { category := d.category
    productID := d.productID
    name := d.name
    description := "Scraped data for product " ++ d.productID ++ "."
    image := d.image
    prices := [("Amazon", d.price)]
    tags := [d.category, "Scraped", "Sitemap"] }

/-- The spec's tag set, stated from its words for comparison:
`{category, "Scraped", site-title-cased}`. -/
def spec_tags (category site : String) : List String :=
  [category, "Scraped", py_title site]

/-! ## Background sitemap-scraping task
(`sitemap_scraping_task`, `main.py` lines 126-182) -/

/-- Site table `site_map` (line 128). -/
def site_map : List (String × String) :=
  [("amazon", "https://www.amazon.in")]

/-- Product-sitemap selection, lines 141-149: the first sitemap URL
containing `'sitemap_dp'`, else the first sitemap found; `none` only when
no sitemaps were found at all (in which case the task exited at
line 136-138, before any driver was created). -/
def chosen_product_sitemap (all_sitemaps : List String) : Option String :=
  match all_sitemaps.find? (fun sm => strContains sm "sitemap_dp") with
  | some sm => some sm
  | none => all_sitemaps.head?

/-- The external world of one task run: the driver `get_driver()` would
return, the sitemap URLs `get_sitemap_urls_from_robots` yields (it
catches its own request errors and returns `[]`), the product URLs
`get_product_urls_from_sitemap` yields per sitemap (likewise total), and
whether the DynamoDB handle setup (`boto3.resource` / `dynamodb.Table`,
lines 152-153 — after `get_driver()` and before the `try`) raises. -/
structure World where
  driver : Driver
  sitemapsFromRobots : List String
  urlsOfSitemap : String → List String
  dynamoSetupRaises : Bool

/-- Observable effects of one task run: URLs navigated to, items passed
to `table.put_item` (a `put_item` failure is caught and logged, line
175-176, so attempts are recorded either way), whether a driver was
acquired, whether `driver.quit()` ran, and whether the task ended by an
uncaught exception. -/
structure TaskResult where
  visited : List String
  writes : List ProductItem
  driverAcquired : Bool
  driverQuit : Bool
  raised : Bool

/-- Intermediate result of the scraping loop, lines 158-178. -/
structure LoopResult where
  visited : List String
  writes : List ProductItem
  raised : Bool

/-- The `for url in product_urls[:5]` loop body, lines 158-178: navigate
and scrape; on a propagated exception (navigation failure) the loop
aborts; a truthy `scraped_data` is turned into `item_to_save` and passed
to `put_item`; then the next URL. -/
def scrape_loop (driver : Driver) : List String → LoopResult
  | [] => ⟨[], [], false⟩
  | url :: rest =>
    match (scrape_amazon_product_page driver url).2 with
    | .error _ => ⟨[url], [], true⟩
    | .ok scraped =>
      let wr := match scraped with
        | some d => [item_to_save d]
        | none => []
      let r := scrape_loop driver rest
      ⟨url :: r.visited, wr ++ r.writes, r.raised⟩

/-- Model of `sitemap_scraping_task(site)`, lines 126-182.  Unsupported site or an
empty sitemap list return before any driver exists.  Then
`get_driver()` acquires the session, the DynamoDB handles are set up
(lines 152-153, between acquisition and the `try`: if they raise, the
`finally` is never entered and the driver is not quit), and the `try`
block scrapes the first 5 product URLs with `driver.quit()` in
`finally`. -/
def sitemap_scraping_task (w : World) (site : String) : TaskResult :=
  match site_map.lookup (pyLower site) with
  | none => ⟨[], [], false, false, false⟩
  | some _base_url =>
    match chosen_product_sitemap w.sitemapsFromRobots with
    | none => ⟨[], [], false, false, false⟩
    | some product_sitemap =>
      if w.dynamoSetupRaises then
        ⟨[], [], true, false, true⟩
      else
        let product_urls := w.urlsOfSitemap product_sitemap
        let r := scrape_loop w.driver (product_urls.take 5)
        ⟨r.visited, r.writes, true, true, r.raised⟩

/-! ## HTTP endpoint (`start_sitemap_scrape`, `main.py` lines 185-191) -/

/-- The JSON body returned by the endpoint. -/
structure ApiResponse where
  status : String
  message : String
  deriving DecidableEq

/-- Model of `start_sitemap_scrape(request, background_tasks)`, lines 185-191: it
schedules `sitemap_scraping_task` as a background task and returns,
unconditionally and immediately, the literal success acknowledgment. -/
def start_sitemap_scrape (site : String) : ApiResponse :=
  { status := "success"
    message := "Accepted. A background scraping job has been started for \u0027"
      ++ site ++ "\u0027. This may take a long time." }

/-! ## Concrete fixtures used by witnesses and counterexamples -/

/-- A concrete product-name element. -/
def e0 : Element :=
  { text := "Wireless Mouse", getAttribute := fun _ => none }

/-- A concrete element found by `pageInvalid` for every valid selector. -/
def eGood : Element :=
  { text := "found", getAttribute := fun _ => none }

/-- A page on which every `By.ID` lookup times out and every CSS lookup
finds `e0`: the second `name_selectors` candidate is the first hit. -/
def pageFallback : Page where
  currentUrl := "https://www.amazon.in/dp/B0TESTING12"
  pageSource := "<html><body>product page</body></html>"
  query := fun st _ =>
    match st with
    | SelectorType.id => QueryResult.timeoutMiss
    | SelectorType.cssSelector => QueryResult.found e0

/-- A page on which every lookup times out. -/
def pageAllMiss : Page where
  currentUrl := "https://example.org/p"
  pageSource := "<html></html>"
  query := fun _ _ => QueryResult.timeoutMiss

/-- A page whose query engine rejects the locator `"span["` as invalid
syntax and finds `eGood` for every other locator. -/
def pageInvalid : Page where
  currentUrl := "https://example.org/q"
  pageSource := "<html></html>"
  query := fun _ sv =>
    match sv with
    | "span[" => QueryResult.invalidSelector
    | _ => QueryResult.found eGood

/-- A page whose source carries the CAPTCHA signature, although every
selector lookup on it would succeed. -/
def pageCaptcha : Page where
  currentUrl := "https://www.amazon.in/errors/validateCaptcha"
  pageSource := "<html>Enter the characters: CAPTCHA check</html>"
  query := fun _ _ => QueryResult.found eGood

/-- A driver for which every navigation lands on `pageAllMiss`. -/
def driverAllMiss : Driver :=
  { pageOf := fun _ => some pageAllMiss }

/-- A driver for which every navigation lands on `pageCaptcha`. -/
def driverCaptcha : Driver :=
  { pageOf := fun _ => some pageCaptcha }

/-- A world in which the DynamoDB handle setup raises after the driver
was acquired. -/
def worldLeak : World where
  driver := driverAllMiss
  sitemapsFromRobots := ["https://www.amazon.in/sitemap_dp_1.xml.gz"]
  urlsOfSitemap := fun _ => []
  dynamoSetupRaises := true

/-- The same world with a healthy DynamoDB setup. -/
def worldOk : World where
  driver := driverAllMiss
  sitemapsFromRobots := ["https://www.amazon.in/sitemap_dp_1.xml.gz"]
  urlsOfSitemap := fun _ => []
  dynamoSetupRaises := false

/-- A concrete fully-populated scraped record. -/
def d0 : ScrapedData where
  name := "Wireless Mouse"
  price := 999
  image := some "https://img.example/x.jpg"
  productID := "B0TESTING12"
  category := "Electronics"

/-! ## Helper lemmas about the resolver -/

theorem few_cons (page : Page) (st : SelectorType) (sv : String)
    (rest : List Locator) :
    find_element_with_fallbacks page ((st, sv) :: rest) =
      match page.query st sv with
      | QueryResult.found e => ([(st, sv)], Except.ok (some e))
      | QueryResult.timeoutMiss =>
          ((st, sv) :: (find_element_with_fallbacks page rest).1,
            (find_element_with_fallbacks page rest).2)
      | QueryResult.invalidSelector => ([(st, sv)], Except.error ()) :=
  rfl

theorem few_cons_found (page : Page) (st : SelectorType) (sv : String)
    (rest : List Locator) (e : Element)
    (h : page.query st sv = QueryResult.found e) :
    find_element_with_fallbacks page ((st, sv) :: rest) =
      ([(st, sv)], Except.ok (some e)) := by
  simp only [few_cons, h]

theorem few_cons_miss (page : Page) (st : SelectorType) (sv : String)
    (rest : List Locator)
    (h : page.query st sv = QueryResult.timeoutMiss) :
    find_element_with_fallbacks page ((st, sv) :: rest) =
      ((st, sv) :: (find_element_with_fallbacks page rest).1,
        (find_element_with_fallbacks page rest).2) := by
  simp only [few_cons, h]

theorem few_cons_invalid (page : Page) (st : SelectorType) (sv : String)
    (rest : List Locator)
    (h : page.query st sv = QueryResult.invalidSelector) :
    find_element_with_fallbacks page ((st, sv) :: rest) =
      ([(st, sv)], Except.error ()) := by
  simp only [few_cons, h]

theorem scrape_loop_nil (driver : Driver) :
    scrape_loop driver [] = ⟨[], [], false⟩ :=
  rfl

theorem scrape_loop_cons (driver : Driver) (url : String)
    (rest : List String) :
    scrape_loop driver (url :: rest) =
      match (scrape_amazon_product_page driver url).2 with
      | Except.error _ => ⟨[url], [], true⟩
      | Except.ok scraped =>
          ⟨url :: (scrape_loop driver rest).visited,
            (match scraped with
              | some d => [item_to_save d]
              | none => []) ++ (scrape_loop driver rest).writes,
            (scrape_loop driver rest).raised⟩ :=
  rfl

theorem scrape_loop_visited_initial (driver : Driver) (urls : List String) :
    List.IsPrefix (scrape_loop driver urls).visited urls := by
  induction urls with
  | nil => exact ⟨[], rfl⟩
  | cons url rest ih =>
    rw [scrape_loop_cons]
    cases (scrape_amazon_product_page driver url).2 with
    | error u => exact ⟨rest, rfl⟩
    | ok scraped =>
      obtain ⟨t, ht⟩ := ih
      exact ⟨t, by simp [ht]⟩

theorem scrape_loop_writes_length (driver : Driver) (urls : List String) :
    (scrape_loop driver urls).writes.length ≤ urls.length := by
  induction urls with
  | nil => simp [scrape_loop_nil]
  | cons url rest ih =>
    rw [scrape_loop_cons]
    cases (scrape_amazon_product_page driver url).2 with
    | error u => simp
    | ok scraped =>
      cases scraped with
      | none =>
        simp only [List.nil_append]
        exact le_trans ih (by simp)
      | some d =>
        simp only [List.singleton_append, List.length_cons]
        exact Nat.succ_le_succ ih

/-! ## Claim theorems -/

/-- C1: for every selector list in which candidate `i` is the first whose
lookup succeeds (all candidates before it time out),
`find_element_with_fallbacks` returns the element found by candidate `i`,
and the candidates it queries are exactly the first `i + 1` — no
candidate after `i` is ever attempted, so the first-listed matching
candidate wins. -/
theorem resolver_first_match_wins (page : Page) (selectors : List Locator)
    (i : Nat) (st : SelectorType) (sv : String) (e : Element)
    (hi : selectors[i]? = some (st, sv))
    (hmiss : ∀ l ∈ selectors.take i, page.query l.1 l.2 = QueryResult.timeoutMiss)
    (hhit : page.query st sv = QueryResult.found e) :
    find_element_with_fallbacks page selectors =
      (selectors.take (i + 1), Except.ok (some e)) := by
  induction selectors generalizing i with
  | nil => simp at hi
  | cons hd tl ih =>
    obtain ⟨st0, sv0⟩ := hd
    cases i with
    | zero =>
      simp only [List.getElem?_cons_zero, Option.some.injEq] at hi
      obtain ⟨rfl, rfl⟩ := Prod.mk.injEq .. ▸ hi
      rw [few_cons_found _ _ _ _ _ hhit]
      simp
    | succ n =>
      have h0 : page.query st0 sv0 = QueryResult.timeoutMiss := by
        have := hmiss (st0, sv0) (by simp [List.take_succ_cons])
        simpa using this
      rw [few_cons_miss _ _ _ _ h0]
      have hi2 : tl[n]? = some (st, sv) := by simpa using hi
      have hmiss2 : ∀ l ∈ tl.take n,
          page.query l.1 l.2 = QueryResult.timeoutMiss := by
        intro l hl
        exact hmiss l (by simp [List.take_succ_cons, hl])
      rw [ih n hi2 hmiss2]
      simp [List.take_succ_cons]

/-- Witness for C1: on `pageFallback`, the first `name_selectors`
candidate times out and the second finds `e0`; the resolver queries
exactly the first two candidates and returns `e0`. -/
theorem resolver_first_match_wins_witness :
    find_element_with_fallbacks pageFallback name_selectors =
      (name_selectors.take 2, Except.ok (some e0)) :=
  resolver_first_match_wins pageFallback name_selectors 1
    SelectorType.cssSelector "h1.a-size-large.a-spacing-none" e0
    rfl
    (by
      intro l hl
      have hl2 : l = (SelectorType.id, "productTitle") := by
        simpa [name_selectors] using hl
      rw [hl2]
      rfl)
    rfl

/-- C5 (amended): the resolver applied to an empty selector list returns
`None` — the very same exhausted-fallbacks outcome as an all-miss list —
rather than failing fast with a distinguished configuration error. -/
theorem resolver_empty_returns_none (page : Page) :
    find_element_with_fallbacks page [] = ([], Except.ok none) :=
  rfl

/-- Counterexample to C5 as stated: with an empty selector list the
resolver silently returns the `None` outcome, indistinguishable from the
ordinary all-candidates-missed `NotFound` result on the same page; no
distinguished `ConfigurationError` exists in the code. -/
theorem empty_selectors_silent_none :
    find_element_with_fallbacks pageAllMiss [] = ([], Except.ok none) ∧
    (find_element_with_fallbacks pageAllMiss
        [(SelectorType.id, "productTitle")]).2 = Except.ok none :=
  ⟨rfl, rfl⟩

/-- C6 (amended): only a timed-out candidate advances the resolver to the
next fallback; a candidate whose locator syntax the query engine rejects
makes the exception propagate out of the resolver (aborting resolution),
instead of being treated as a miss. -/
theorem resolver_invalid_selector_raises (page : Page)
    (selectors : List Locator) (i : Nat) (st : SelectorType) (sv : String)
    (hi : selectors[i]? = some (st, sv))
    (hmiss : ∀ l ∈ selectors.take i, page.query l.1 l.2 = QueryResult.timeoutMiss)
    (hbad : page.query st sv = QueryResult.invalidSelector) :
    find_element_with_fallbacks page selectors =
      (selectors.take (i + 1), Except.error ()) := by
  induction selectors generalizing i with
  | nil => simp at hi
  | cons hd tl ih =>
    obtain ⟨st0, sv0⟩ := hd
    cases i with
    | zero =>
      simp only [List.getElem?_cons_zero, Option.some.injEq] at hi
      obtain ⟨rfl, rfl⟩ := Prod.mk.injEq .. ▸ hi
      rw [few_cons_invalid _ _ _ _ hbad]
      simp
    | succ n =>
      have h0 : page.query st0 sv0 = QueryResult.timeoutMiss := by
        have := hmiss (st0, sv0) (by simp [List.take_succ_cons])
        simpa using this
      rw [few_cons_miss _ _ _ _ h0]
      have hi2 : tl[n]? = some (st, sv) := by simpa using hi
      have hmiss2 : ∀ l ∈ tl.take n,
          page.query l.1 l.2 = QueryResult.timeoutMiss := by
        intro l hl
        exact hmiss l (by simp [List.take_succ_cons, hl])
      rw [ih n hi2 hmiss2]
      simp [List.take_succ_cons]

/-- Witness for the amended C6: on `pageInvalid`, the first candidate's
locator `"span["` is rejected as invalid and the resolver raises at
once. -/
theorem resolver_invalid_selector_raises_witness :
    find_element_with_fallbacks pageInvalid
        [(SelectorType.cssSelector, "span["), (SelectorType.id, "good")] =
      ([(SelectorType.cssSelector, "span[")], Except.error ()) := by
  have h := resolver_invalid_selector_raises pageInvalid
    [(SelectorType.cssSelector, "span["), (SelectorType.id, "good")] 0
    SelectorType.cssSelector "span[" rfl (by simp) rfl
  simpa using h

/-- Counterexample to C6 as stated: on `pageInvalid` the resolver, given
an invalid first candidate and a second candidate that the engine would
match (`eGood`), raises out of the resolution instead of treating the
invalid candidate as a miss and continuing. -/
theorem invalid_selector_crashes_resolver :
    (find_element_with_fallbacks pageInvalid
        [(SelectorType.cssSelector, "span["), (SelectorType.id, "good")]).2 =
      Except.error () ∧
    pageInvalid.query SelectorType.id "good" = QueryResult.found eGood :=
  ⟨rfl, rfl⟩

/-- C9: when the loaded page matches the static CAPTCHA/anti-bot
signature (the URL contains `"api-services.ge"` or the lowered page
source contains `"captcha"`), the scrape of that page returns no record
and its list of queried selector candidates is empty — it aborts before
any field resolution is attempted, with no retry. -/
theorem captcha_aborts_before_field_queries (driver : Driver) (url : String)
    (page : Page) (hpage : driver.pageOf url = some page)
    (hcap : (strContains page.currentUrl "api-services.ge"
        || strContains (pyLower page.pageSource) "captcha") = true) :
    scrape_amazon_product_page driver url = ([], Except.ok none) := by
  unfold scrape_amazon_product_page
  rw [hpage]
  simp [hcap]

/-- Witness for C9: `pageCaptcha` carries the CAPTCHA signature, and even
though every selector lookup on it would succeed, the scrape issues no
query and yields no record. -/
theorem captcha_aborts_before_field_queries_witness :
    scrape_amazon_product_page driverCaptcha
        "https://www.amazon.in/dp/B0TESTING12" = ([], Except.ok none) :=
  captcha_aborts_before_field_queries driverCaptcha
    "https://www.amazon.in/dp/B0TESTING12" pageCaptcha rfl rfl

/-- C2: if resolving any one of the three field selector sets (name,
price, image) on the loaded page yields no element, the product-page
scrape returns no record, and the scraping loop makes no store write for
that URL (its writes are exactly the writes of the remaining URLs): no
partial record is ever persisted. -/
theorem scrape_field_miss_no_record (driver : Driver) (url : String)
    (page : Page) (hpage : driver.pageOf url = some page)
    (hmiss :
      (find_element_with_fallbacks page name_selectors).2 = Except.ok none ∨
      (find_element_with_fallbacks page price_selectors).2 = Except.ok none ∨
      (find_element_with_fallbacks page image_selectors).2 = Except.ok none) :
    (scrape_amazon_product_page driver url).2 = Except.ok none ∧
    ∀ rest, (scrape_loop driver (url :: rest)).writes =
      (scrape_loop driver rest).writes := by
  have main : (scrape_amazon_product_page driver url).2 = Except.ok none := by
    unfold scrape_amazon_product_page
    rw [hpage]
    cases hcap : (strContains page.currentUrl "api-services.ge"
        || strContains (pyLower page.pageSource) "captcha") with
    | true =>
      rcases Bool.or_eq_true_iff.mp hcap with h | h <;> simp [h]
    | false =>
      obtain ⟨hca, hcb⟩ := Bool.or_eq_false_iff.mp hcap
      rcases hmiss with hm | hm | hm
      · simp [hca, hcb, hm]
      · rcases h1 : (find_element_with_fallbacks page name_selectors).2
          with u | _ | e1
        · simp [hca, hcb, h1]
        · simp [hca, hcb, h1]
        · simp [hca, hcb, h1, hm]
      · rcases h1 : (find_element_with_fallbacks page name_selectors).2
          with u | _ | e1
        · simp [hca, hcb, h1]
        · simp [hca, hcb, h1]
        · rcases h2 : (find_element_with_fallbacks page price_selectors).2
            with u | _ | e2
          · simp [hca, hcb, h1, h2]
          · simp [hca, hcb, h1, h2]
          · rcases h3 : e2.getAttribute "textContent" with _ | raw
            · simp [hca, hcb, h1, h2, h3]
            · rcases h4 : parse_price raw with _ | p
              · simp [hca, hcb, h1, h2, h3, h4]
              · simp [hca, hcb, h1, h2, h3, h4, hm]
  refine ⟨main, fun rest => ?_⟩
  rw [scrape_loop_cons, main]
  simp

/-- Witness for C2: on `driverAllMiss` every field lookup times out, the
scrape returns no record, and the loop writes nothing for that URL. -/
theorem scrape_field_miss_no_record_witness :
    (scrape_amazon_product_page driverAllMiss
        "https://www.amazon.in/dp/B0TESTING12").2 = Except.ok none ∧
    (scrape_loop driverAllMiss
        ["https://www.amazon.in/dp/B0TESTING12"]).writes =
      (scrape_loop driverAllMiss []).writes := by
  have h := scrape_field_miss_no_record driverAllMiss
    "https://www.amazon.in/dp/B0TESTING12" pageAllMiss rfl (Or.inl rfl)
  exact ⟨h.1, h.2 []⟩

/-- C3: evaluation of the price-parsing pipeline at the spec's inputs.
`"1,23,456"` parses to `123456` and `"N/A"` is malformed (no record), as
claimed; but `"₹999"` (U+20B9) fails to parse — the code's strip pattern
is the mojibake sequence U+00E2 U+201A U+00B9, not the rupee sign, so
the rupee glyph survives into `float()` and raises — while the mojibake
string `"â‚¹999"` is what actually parses to `999`. -/
theorem parse_price_rupee_mojibake :
    parse_price "1,23,456" = some 123456 ∧
    parse_price "N/A" = none ∧
    parse_price "₹999" = none ∧
    parse_price "â‚¹999" = some 999 := by
  refine ⟨?_, ?_, ?_, ?_⟩ <;> decide

/-- Counterexample to C4 as stated: for the concrete record `d0` scraped
under site `"amazon"`, the persisted tags are the literal
`[category, "Scraped", "Sitemap"]`, which is not the spec's
`{category, "Scraped", site-title-cased}` — the title-cased site
`"Amazon"` does not occur among the tags at all. -/
theorem tags_not_title_cased_site :
    (item_to_save d0).tags = ["Electronics", "Scraped", "Sitemap"] ∧
    spec_tags d0.category "amazon" = ["Electronics", "Scraped", "Amazon"] ∧
    (item_to_save d0).tags ≠ spec_tags d0.category "amazon" ∧
    ¬ "Amazon" ∈ (item_to_save d0).tags := by
  refine ⟨rfl, ?_, ?_, ?_⟩ <;> decide

/-- C4 (amended): every persisted `ProductItem` built from a fully
scraped record has a `prices` map with exactly one entry, keyed by the
hardcoded `"Amazon"` (which equals the title-cased name of the only
supported site), and its tags are exactly
`[category, "Scraped", "Sitemap"]` — the literal `"Sitemap"`, not the
title-cased site name. -/
theorem item_prices_and_tags (d : ScrapedData) :
    (item_to_save d).prices = [(py_title "amazon", d.price)] ∧
    (item_to_save d).tags = [d.category, "Scraped", "Sitemap"] := by
  constructor
  · have h : py_title "amazon" = "Amazon" := by decide
    rw [h]
    rfl
  · rfl

/-- Counterexample to C7 as stated: for the unsupported site `"myntra"`
the inbound request is answered with status `"success"` (not any
404-equivalent), even though the site lookup fails and the background
job silently does nothing. -/
theorem unknown_site_reported_success :
    (start_sitemap_scrape "myntra").status = "success" ∧
    site_map.lookup (pyLower "myntra") = none ∧
    sitemap_scraping_task worldOk "myntra" =
      { visited := [], writes := [], driverAcquired := false,
        driverQuit := false, raised := false } := by
  refine ⟨rfl, by decide, rfl⟩

/-- C7 (amended): every inbound request — whatever the site and whatever
later happens to the background job — is answered immediately with the
fixed success acknowledgment; no condition is ever mapped to a
404-equivalent or 500-equivalent response. -/
theorem endpoint_always_success (site : String) :
    (start_sitemap_scrape site).status = "success" ∧
    (start_sitemap_scrape site).message =
      "Accepted. A background scraping job has been started for \u0027" ++ site
        ++ "\u0027. This may take a long time." :=
  ⟨rfl, rfl⟩

/-- Counterexample to C8 as stated: in `worldLeak` the DynamoDB handle
setup (which runs after `get_driver()` and before the `try`) raises, and
the acquired driver is never quit — an execution path that leaves the
session unreleased. -/
theorem driver_leak_on_dynamo_setup_failure :
    (sitemap_scraping_task worldLeak "amazon").driverAcquired = true ∧
    (sitemap_scraping_task worldLeak "amazon").driverQuit = false :=
  ⟨rfl, rfl⟩

/-- C8 (amended): provided the DynamoDB handle setup between driver
acquisition and the `try` block does not raise, an acquired driver is
quit on every exit path of the job — success, field-miss failure, or an
exception inside the `try` (the `finally` runs). -/
theorem driver_quit_when_try_entered (w : World) (site : String)
    (hsetup : w.dynamoSetupRaises = false)
    (hacq : (sitemap_scraping_task w site).driverAcquired = true) :
    (sitemap_scraping_task w site).driverQuit = true := by
  have key : (sitemap_scraping_task w site).driverQuit =
      (sitemap_scraping_task w site).driverAcquired := by
    unfold sitemap_scraping_task
    cases site_map.lookup (pyLower site) with
    | none => rfl
    | some base =>
      cases chosen_product_sitemap w.sitemapsFromRobots with
      | none => rfl
      | some sm => simp [hsetup]
  rw [key, hacq]

/-- Witness for the amended C8: in `worldOk` the driver is acquired and
quit. -/
theorem driver_quit_when_try_entered_witness :
    (sitemap_scraping_task worldOk "amazon").driverQuit = true :=
  driver_quit_when_try_entered worldOk "amazon" rfl rfl

/-- C10: every sitemap job visits at most 5 URLs and makes at most 5
store writes, and the visited URLs are a prefix of the first 5 URLs
extracted from the chosen product sitemap — URLs from index 5 onward are
never navigated to, however many the sitemap contains. -/
theorem at_most_five_urls_scraped (w : World) (site : String) :
    (sitemap_scraping_task w site).visited.length ≤ 5 ∧
    (sitemap_scraping_task w site).writes.length ≤ 5 ∧
    List.IsPrefix (sitemap_scraping_task w site).visited
      (((chosen_product_sitemap w.sitemapsFromRobots).map
          fun sm => (w.urlsOfSitemap sm).take 5).getD []) := by
  unfold sitemap_scraping_task
  cases site_map.lookup (pyLower site) with
  | none => exact ⟨by simp, by simp, ⟨_, rfl⟩⟩
  | some base =>
    cases chosen_product_sitemap w.sitemapsFromRobots with
    | none => exact ⟨by simp, by simp, ⟨_, rfl⟩⟩
    | some sm =>
      cases w.dynamoSetupRaises with
      | true => exact ⟨by simp, by simp, ⟨_, rfl⟩⟩
      | false =>
        have hp := scrape_loop_visited_initial w.driver
          ((w.urlsOfSitemap sm).take 5)
        have hlen : ((w.urlsOfSitemap sm).take 5).length ≤ 5 :=
          List.length_take_le 5 _
        refine ⟨?_, ?_, ?_⟩
        · exact le_trans hp.length_le hlen
        · exact le_trans
            (scrape_loop_writes_length w.driver ((w.urlsOfSitemap sm).take 5))
            hlen
        · simpa using hp

end MoolyaMitra
